import Mathlib

/-!
Shallow embedding of the autonomous-agent repository (planner / executor /
reflector / orchestrator / memory store) and proofs about its behaviour.

Conventions used throughout:
* Python strings are Lean `String`s; helper functions (`pyStrip`, `pyUpper`,
  `pyHasSub`, ...) reproduce the Python string primitives used by the code.
* The language model is an external oracle: a function from the prompt to
  either an output string or a raised exception, `String → Except String String`.
* Exceptions are modelled as `Except String α`, the error carrying `str(e)`.
* Python floats are idealised: stored embeddings are rational vectors and the
  similarity scores computed from them live in `ℝ` (the square roots taken by
  `np.linalg.norm` are irrational in general).
-/

namespace Agent

/-! ## Python string primitives -/

/-- Whitespace characters removed by Python's `str.strip()` (ASCII range). -/
def pyIsSpace (c : Char) : Bool :=
  c == ' ' || c == '\t' || c == '\n' || c == '\r' || c == '\x0b' || c == '\x0c'

/-- Python `str.strip()`: drop whitespace from both ends. -/
def pyStrip (s : String) : String :=
  ⟨((s.data.dropWhile pyIsSpace).reverse.dropWhile pyIsSpace).reverse⟩

/-- Python `str.upper()` (ASCII letters, which is all the code compares). -/
def pyUpper (s : String) : String :=
  ⟨s.data.map Char.toUpper⟩

/-- Whether `pat` occurs at the head of `l`. -/
def headMatch : List Char → List Char → Bool
  | [], _ => true
  | _ :: _, [] => false
  | p :: ps, h :: hs => p == h && headMatch ps hs

/-- Whether `pat` occurs somewhere in `hay` (as a contiguous run). -/
def subMatch : List Char → List Char → Bool
  | [], pat => pat.isEmpty
  | h :: hs, pat => headMatch pat (h :: hs) || subMatch hs pat

/-- Python `needle in hay` for strings. -/
def pyHasSub (hay needle : String) : Bool :=
  subMatch hay.data needle.data

/-- Python `hay.startswith(needle)`. -/
def pyStartsWith (hay needle : String) : Bool :=
  headMatch needle.data hay.data

/-- Python `repr` of a list of strings, as interpolated by f-strings
(`', '`-separated, each element single-quoted; quoting subtleties for strings
that themselves contain quotes are not needed by any interpolated value the
claims exercise). -/
def pyListRepr (l : List String) : String :=
  "[" ++ String.intercalate ", " (l.map (fun s => "'" ++ s ++ "'")) ++ "]"

/-- Truthiness of an optional Python string (`None` and `""` are falsy). -/
def truthy : Option String → Bool
  | none => false
  | some s => !(s == "")

/-! ## state.py — AgentState and the rendered context summary -/

/-- A record as returned to callers by the memory store: the persisted
interaction with internal storage fields (`embedding`, `id`/`_id`, `_rid`,
`_self`, `_etag`, `_attachments`, `_ts`) removed.  Similarity searches attach
a `SimilarityScore` value, modelled by the optional `simScore` field. -/
structure ExposedRecord where
  session_id : String
  timestamp : String
  goal : String
  plan : List String
  observations : List String
  result : String
  metadata : List (String × String)
  simScore : Option ℝ

/-- The context bundle returned by `get_relevant_context`. -/
structure ContextBundle where
  recent_history : List ExposedRecord
  similar_interactions : List ExposedRecord

/-- `AgentState` from `state.py` (the generated `uuid4` session id is supplied
by the caller of the constructor in this embedding). -/
structure AgentState where
  goal : String
  session_id : String
  plan : List String
  current_step : Nat
  observations : List String
  completed : Bool
  context : Option ContextBundle
  metadata : List (String × String)

/-- The numbered "Goal/Result" lines produced for one context section. -/
def contextItemLines (items : List ExposedRecord) : List String :=
  (items.enum.map (fun p =>
    ["\n" ++ toString (p.1 + 1) ++ ". Goal: " ++ p.2.goal,
     "   Result: " ++ p.2.result])).flatten

/-- `AgentState.get_context_summary`. -/
def get_context_summary (s : AgentState) : String :=
  match s.context with
  | none => "No previous context available."
  | some ctx =>
    let summary : List String :=
      (if ctx.recent_history.isEmpty then [] else
        "=== Recent Conversation History ===" :: contextItemLines ctx.recent_history)
      ++
      (if ctx.similar_interactions.isEmpty then [] else
        "\n\n=== Similar Past Interactions ===" :: contextItemLines ctx.similar_interactions)
    if summary.isEmpty then "No previous context available."
    else String.intercalate "\n" summary

/-! ## reflector.py -/

/-- The decision normalisation performed by `reflect` after the model call
(`reflector.py` lines 45-57): strip and uppercase the raw output; return it
if it is exactly one of the three valid decisions, otherwise return the first
valid decision (in the order CONTINUE, RETRY, FAIL) occurring as a substring,
defaulting to CONTINUE. -/
def reflect_decision (output : String) : String :=
  let decision := pyUpper (pyStrip output)
  if decision == "CONTINUE" || decision == "RETRY" || decision == "FAIL" then
    decision
  else if pyHasSub decision "CONTINUE" then "CONTINUE"
  else if pyHasSub decision "RETRY" then "RETRY"
  else if pyHasSub decision "FAIL" then "FAIL"
  else "CONTINUE"

/-- Specification-side restatement of the claimed reflector behaviour:
normalise (trim + uppercase), then return the first of the three tokens that
occurs as a substring of the normalised text, defaulting to CONTINUE. -/
def reflect_claimed (output : String) : String :=
  let t := pyUpper (pyStrip output)
  if pyHasSub t "CONTINUE" then "CONTINUE"
  else if pyHasSub t "RETRY" then "RETRY"
  else if pyHasSub t "FAIL" then "FAIL"
  else "CONTINUE"

/-- `REFLECT_PROMPT` from `reflector.py`. -/
def REFLECT_PROMPT : String :=
  "\nAnalyze the execution so far, considering both current execution and historical context.\n\nRespond with ONLY one word:\n- CONTINUE (if task is complete and successful)\n- RETRY (if task needs another attempt with different approach)\n- FAIL (if task is impossible or has critical errors)\n"

/-- The optional historical-context block of the reflection prompt. -/
def reflectContextInfo (s : AgentState) : String :=
  match s.context with
  | some ctx =>
    if !ctx.similar_interactions.isEmpty then
      "\n\nHISTORICAL CONTEXT:\nSimilar past interactions show successful patterns. Consider if current execution aligns with past successes.\n"
    else ""
  | none => ""

/-- The prompt built by `reflect`. -/
def reflectPrompt (s : AgentState) : String :=
  "\n" ++ REFLECT_PROMPT ++ "\n\nGoal:\n" ++ s.goal ++ "\n\nPlan:\n" ++
    pyListRepr s.plan ++ "\n\nObservations:\n" ++ pyListRepr s.observations ++
    "\n" ++ reflectContextInfo s ++ "\n"

/-- `reflect` from `reflector.py`: one model invocation followed by the
decision normalisation; a model failure propagates as an exception. -/
def reflect (run : String → Except String String) (s : AgentState) :
    Except String String :=
  match run (reflectPrompt s) with
  | .error e => .error e
  | .ok out => .ok (reflect_decision out)

/-! ## planner.py — JSON extraction and plan generation

`json.loads` is embedded as a fuel-indexed recursive-descent parser over the
character list; the fuel is set to one more than the input length, which
bounds the recursion because every recursive call consumes at least one
character first.  The number grammar is marginally more lenient than
Python's (leading zeros are accepted); no claim depends on that corner. -/

/-- Parsed JSON values.  Numbers are kept exactly as
`mantissa * 10 ^ exp10`. -/
inductive JsonV where
  | null
  | boolean (b : Bool)
  | num (mantissa : Int) (exp10 : Int)
  | str (s : String)
  | arr (xs : List JsonV)
  | obj (kvs : List (String × JsonV))
deriving Repr

/-- Skip JSON whitespace. -/
def skipWs : List Char → List Char
  | [] => []
  | c :: cs =>
    if c == ' ' || c == '\t' || c == '\n' || c == '\r' then skipWs cs
    else c :: cs

/-- Value of a hex digit. -/
def hexVal (c : Char) : Option Nat :=
  if '0' ≤ c ∧ c ≤ '9' then some (c.toNat - 48)
  else if 'a' ≤ c ∧ c ≤ 'f' then some (c.toNat - 87)
  else if 'A' ≤ c ∧ c ≤ 'F' then some (c.toNat - 55)
  else none

/-- Single-character JSON escapes. -/
def escChar (e : Char) : Option Char :=
  if e == '"' then some '"'
  else if e == '\\' then some '\\'
  else if e == '/' then some '/'
  else if e == 'b' then some '\x08'
  else if e == 'f' then some '\x0c'
  else if e == 'n' then some '\n'
  else if e == 'r' then some '\r'
  else if e == 't' then some '\t'
  else none

/-- Decimal value of a digit run. -/
def digitsToNat (ds : List Char) : Nat :=
  ds.foldl (fun n c => 10 * n + (c.toNat - 48)) 0

/-- Parse the body of a JSON string (after the opening quote), returning the
content and the remaining input after the closing quote. -/
def parseStringBody : Nat → List Char → Except String (String × List Char)
  | 0, _ => .error "json: fuel exhausted"
  | _ + 1, [] => .error "json: unterminated string"
  | fuel + 1, c :: cs =>
    if c == '"' then .ok ("", cs)
    else if c == '\\' then
      match cs with
      | [] => .error "json: bad escape"
      | e :: cs2 =>
        if e == 'u' then
          match cs2 with
          | a :: b :: c2 :: d :: cs3 =>
            match hexVal a, hexVal b, hexVal c2, hexVal d with
            | some x1, some x2, some x3, some x4 =>
              (parseStringBody fuel cs3).map (fun r =>
                (⟨Char.ofNat (((x1 * 16 + x2) * 16 + x3) * 16 + x4) :: r.1.data⟩, r.2))
            | _, _, _, _ => .error "json: bad unicode escape"
          | _ => .error "json: bad unicode escape"
        else
          match escChar e with
          | some ch => (parseStringBody fuel cs2).map (fun r => (⟨ch :: r.1.data⟩, r.2))
          | none => .error "json: bad escape"
    else if c.toNat < 32 then .error "json: control character in string"
    else (parseStringBody fuel cs).map (fun r => (⟨c :: r.1.data⟩, r.2))

/-- Parse a JSON number at the head of the input. -/
def parseNum (cs : List Char) : Except String (JsonV × List Char) :=
  let p := match cs with
    | '-' :: r => (true, r)
    | _ => (false, cs)
  let negSign := p.1
  let cs1 := p.2
  let intPart := cs1.takeWhile Char.isDigit
  let rest1 := cs1.dropWhile Char.isDigit
  if intPart.isEmpty then .error "json: expecting value"
  else
    let q := match rest1 with
      | '.' :: r => (r.takeWhile Char.isDigit, r.dropWhile Char.isDigit, true)
      | _ => (([] : List Char), rest1, false)
    let fracPart := q.1
    let rest2 := q.2.1
    let hadDot := q.2.2
    if hadDot ∧ fracPart.isEmpty then .error "json: bad number"
    else
      let r := match rest2 with
        | e :: r1 =>
          if e == 'e' || e == 'E' then
            let s := match r1 with
              | '-' :: r3 => (true, r3)
              | '+' :: r3 => (false, r3)
              | _ => (false, r1)
            let eds := s.2.takeWhile Char.isDigit
            let r4 := s.2.dropWhile Char.isDigit
            if eds.isEmpty then ((0 : Int), rest2, false)
            else if s.1 then (-(digitsToNat eds : Int), r4, true)
            else ((digitsToNat eds : Int), r4, true)
          else ((0 : Int), rest2, true)
        | [] => ((0 : Int), rest2, true)
      if r.2.2 = false then .error "json: bad number"
      else
        let mant : Int :=
          if negSign then -(digitsToNat (intPart ++ fracPart) : Int)
          else (digitsToNat (intPart ++ fracPart) : Int)
        .ok (.num mant (r.1 - fracPart.length), r.2.1)

mutual

/-- Parse one JSON value at the head of the input. -/
def parseVal : Nat → List Char → Except String (JsonV × List Char)
  | 0, _ => .error "json: fuel exhausted"
  | fuel + 1, cs =>
    match skipWs cs with
    | [] => .error "json: expecting value"
    | c :: rest =>
      if c == '\x7b' then
        match skipWs rest with
        | '\x7d' :: rest2 => .ok (.obj [], rest2)
        | rest2 => parseMembers fuel rest2 []
      else if c == '[' then
        match skipWs rest with
        | ']' :: rest2 => .ok (.arr [], rest2)
        | rest2 => parseItems fuel rest2 []
      else if c == '"' then
        (parseStringBody (rest.length + 1) rest).map (fun r => (.str r.1, r.2))
      else if headMatch "true".data (c :: rest) then .ok (.boolean true, rest.drop 3)
      else if headMatch "false".data (c :: rest) then .ok (.boolean false, rest.drop 4)
      else if headMatch "null".data (c :: rest) then .ok (.null, rest.drop 3)
      else parseNum (c :: rest)

/-- Parse the members of a JSON object (after the opening brace, first key
pending); later duplicate keys end up later in the list, matching Python's
last-wins dict construction through `dictGet`. -/
def parseMembers : Nat → List Char → List (String × JsonV) →
    Except String (JsonV × List Char)
  | 0, _, _ => .error "json: fuel exhausted"
  | fuel + 1, cs, acc =>
    match skipWs cs with
    | '"' :: rest =>
      match parseStringBody (rest.length + 1) rest with
      | .error e => .error e
      | .ok (k, rest2) =>
        match skipWs rest2 with
        | ':' :: rest3 =>
          match parseVal fuel rest3 with
          | .error e => .error e
          | .ok (v, rest4) =>
            match skipWs rest4 with
            | ',' :: rest5 => parseMembers fuel rest5 (acc ++ [(k, v)])
            | '\x7d' :: rest5 => .ok (.obj (acc ++ [(k, v)]), rest5)
            | _ => .error "json: expecting comma or end of object"
        | _ => .error "json: expecting colon"
    | _ => .error "json: expecting property name"

/-- Parse the items of a JSON array (after the opening bracket, first item
pending). -/
def parseItems : Nat → List Char → List JsonV → Except String (JsonV × List Char)
  | 0, _, _ => .error "json: fuel exhausted"
  | fuel + 1, cs, acc =>
    match parseVal fuel cs with
    | .error e => .error e
    | .ok (v, rest) =>
      match skipWs rest with
      | ',' :: rest2 => parseItems fuel rest2 (acc ++ [v])
      | ']' :: rest2 => .ok (.arr (acc ++ [v]), rest2)
      | _ => .error "json: expecting comma or end of array"

end

/-- `json.loads`: parse a complete JSON document, rejecting trailing data. -/
def json_loads (s : String) : Except String JsonV :=
  match parseVal (s.data.length + 1) s.data with
  | .error e => .error e
  | .ok (v, rest) =>
    match skipWs rest with
    | [] => .ok v
    | _ => .error "json: extra data"

/-- The span matched by `re.search(r"\x7b.*\x7d", text, re.DOTALL)`: the
match starts at the first opening brace followed by some later closing brace
and, `.*` being greedy, extends to the last closing brace of the whole
input.  `none` when the regex does not match. -/
def braceSpan : List Char → Option (List Char)
  | [] => none
  | c :: rest =>
    if c == '\x7b' then
      if rest.any (· == '\x7d') then
        some (c :: ((rest.reverse.dropWhile (· != '\x7d')).reverse))
      else none
    else braceSpan rest

/-- Specification-side predicate: the text contains a brace-delimited
fragment, i.e. an opening brace with a closing brace somewhere after it. -/
def hasBracePair : List Char → Bool
  | [] => false
  | c :: rest => (c == '\x7b' && rest.any (· == '\x7d')) || hasBracePair rest

/-- `extract_json` from `planner.py`. -/
def extract_json (text : String) : Except String JsonV :=
  match braceSpan text.data with
  | none => .error ("No JSON found in planner output:\n" ++ text)
  | some frag => json_loads ⟨frag⟩

/-- Python dict lookup on the parsed object members (duplicate keys:
last occurrence wins). -/
def dictGet (kvs : List (String × JsonV)) (k : String) : Option JsonV :=
  (kvs.reverse.find? (fun q => q.1 == k)).map (fun q => q.2)

/-- `data["steps"]`: field access on the parsed value, failing (KeyError /
TypeError) when the value is not an object or lacks the field. -/
def getSteps (v : JsonV) : Except String JsonV :=
  match v with
  | .obj kvs =>
    match dictGet kvs "steps" with
    | some s => .ok s
    | none => .error "KeyError: steps"
  | _ => .error "TypeError: not a dict"

/-- The post-invocation part of `generate_plan`: extract the JSON fragment
and return its `steps` field, converting any failure into the
`RuntimeError` raised by the planner. -/
def parse_plan_output (output : String) : Except String JsonV :=
  match (extract_json output).bind getSteps with
  | .ok v => .ok v
  | .error _ =>
    .error ("Planner failed to return valid JSON.\nOutput was:\n" ++ output)

/-- `PLANNER_PROMPT` from `planner.py`. -/
def PLANNER_PROMPT : String :=
  "\nYou are an autonomous planning agent with access to conversation history and similar past interactions.\n\nGiven a user goal and relevant context, produce an ordered list of minimal steps.\n\nRules:\n- Consider the conversation history and similar past interactions when planning\n- Learn from successful past strategies\n- Avoid repeating failed approaches from history\n- Do NOT execute anything\n- Do NOT explain\n- Output JSON only in this exact format:\n\n\x7b\n  \"steps\": [\"step 1\", \"step 2\"]\n\x7d\n"

/-- The optional context block of the planner prompt. -/
def plannerContextInfo (s : AgentState) : String :=
  if s.context.isSome then
    "\n\nRELEVANT CONTEXT:\n" ++ get_context_summary s ++
      "\n\nUse this context to inform your planning. Learn from successful past approaches and avoid repeating failures.\n"
  else ""

/-- The prompt built by `generate_plan`. -/
def plannerPrompt (s : AgentState) : String :=
  PLANNER_PROMPT ++ "\n\nGoal: " ++ s.goal ++ "\n" ++ plannerContextInfo s ++ "\n"

/-- `generate_plan` from `planner.py`: one model invocation (whose failure
propagates untouched, the call being outside the `try`) followed by
extraction of the `steps` field. -/
def generate_plan (run : String → Except String String) (s : AgentState) :
    Except String JsonV :=
  match run (plannerPrompt s) with
  | .error e => .error e
  | .ok out => parse_plan_output out

/-! ## executor.py -/

/-- The optional context block of the executor prompt (first step only). -/
def execContextInfo (s : AgentState) : String :=
  if s.current_step == 0 && s.context.isSome then
    "\n\nRELEVANT CONTEXT FROM PAST INTERACTIONS:\n" ++ get_context_summary s ++
      "\n\nUse this context to inform your execution approach.\n"
  else ""

/-- The prompt built by one iteration of `execute_plan`. -/
def execPrompt (s : AgentState) (step : String) : String :=
  "\nYou are executing step " ++ toString (s.current_step + 1) ++ " of " ++
    toString s.plan.length ++ ".\n\nGoal: " ++ s.goal ++ "\n\nCurrent Step:\n" ++
    step ++ "\n\nPrevious observations from current execution:\n" ++
    (if s.observations.isEmpty then "None yet" else pyListRepr s.observations) ++
    "\n" ++ execContextInfo s ++
    "\n\nExecute this step using available tools. Be concise in your response.\n"

/-- The `while` loop of `execute_plan`, fuel-indexed for structural
recursion.  The fuel is `max_steps - current_step`, which bounds the number
of iterations: the loop guard `current_step < max_steps` fails exactly when
the fuel would run out.  A model-invocation failure aborts the loop,
returning the partial state and the exception (the source lets it
propagate); on normal exit `completed` is set true. -/
def execGo (run : String → Except String String) (max_steps : Nat) :
    Nat → AgentState → AgentState × Option String
  | 0, s => ({ s with completed := true }, none)
  | fuel + 1, s =>
    if s.completed = false ∧ s.current_step < s.plan.length ∧
        s.current_step < max_steps then
      let step := s.plan.getD s.current_step ""
      match run (execPrompt s step) with
      | .error e => (s, some e)
      | .ok out =>
        execGo run max_steps fuel
          { s with observations := s.observations ++ [out],
                   current_step := s.current_step + 1 }
    else ({ s with completed := true }, none)

/-- `execute_plan` from `executor.py` (the orchestrator calls it with the
default `max_steps = 10`). -/
def execute_plan (run : String → Except String String) (s : AgentState)
    (max_steps : Nat) : AgentState × Option String :=
  execGo run max_steps (max_steps - s.current_step) s

/-! ## memory.py

The two Cosmos DB backends are modelled by the logical contents of the
container (a list of persisted interaction documents) together with oracles
for the operations whose outcome is decided outside this code base: the
native vector query (whose ranking semantics live in the database) and the
possibility of any individual query raising.  Embedding vectors are rational;
the cosine similarity computed from them by `numpy` is a real number. -/

/-- A persisted interaction document.  `embedding := none` models a document
without the field; `some []` an empty vector (both are falsy in the
`"embedding" in item and item["embedding"]` guard). -/
structure Interaction where
  session_id : String
  timestamp : String
  goal : String
  plan : List String
  observations : List String
  result : String
  embedding : Option (List ℚ)
  metadata : List (String × String)

/-- Removal of the internal storage fields (`item.pop("embedding")`,
`"_id"`/`"id"`, `"_rid"`, `"_self"`, `"_etag"`, `"_attachments"`, `"_ts"`)
before a document is returned to the caller. -/
def stripFields (it : Interaction) : ExposedRecord :=
  { session_id := it.session_id, timestamp := it.timestamp, goal := it.goal,
    plan := it.plan, observations := it.observations, result := it.result,
    metadata := it.metadata, simScore := none }

/-- `np.dot` on equal-length vectors. -/
def dotQ (a b : List ℚ) : ℚ :=
  ((a.zip b).map (fun p => p.1 * p.2)).sum

/-- Sum of squares (the square of `np.linalg.norm`). -/
def sumSq (a : List ℚ) : ℚ :=
  (a.map (fun x => x * x)).sum

/-- `np.linalg.norm`: the Euclidean norm. -/
noncomputable def normQ (a : List ℚ) : ℝ :=
  Real.sqrt ((sumSq a : ℚ) : ℝ)

/-- Cosine similarity as computed in `_sql_manual_similarity_search`:
`np.dot(query_vec, item_vec) / (np.linalg.norm(query_vec) * np.linalg.norm(item_vec))`. -/
noncomputable def cosineSim (a b : List ℚ) : ℝ :=
  ((dotQ a b : ℚ) : ℝ) / (normQ a * normQ b)

/-- Truthiness of the `embedding` field. -/
def embTruthy : Option (List ℚ) → Bool
  | some (_ :: _) => true
  | _ => false

/-- The SQL-API backend: container contents plus failure oracles for each
query the code issues, and the native `VectorDistance` query as an oracle of
the query embedding, limit and `min_score` (its ranking is computed by the
database, not by this code). -/
structure SqlStore where
  items : List Interaction
  fetchAllFails : Bool
  simpleFails : Bool
  recentFails : Bool
  native : List ℚ → Nat → ℚ → Except String (List ExposedRecord)

/-- The MongoDB vCore backend: collection contents plus the `$search`
aggregation as an oracle of the query embedding and limit, and a failure
oracle for the session-history `find`. -/
structure MongoStore where
  docs : List Interaction
  aggregate : List ℚ → Nat → Except String (List ExposedRecord)
  findFails : Bool

/-- The backend selected at construction (`client_type`). -/
inductive Backend where
  | mongodb (st : MongoStore)
  | sql (st : SqlStore)

/-- Newest-first comparison of documents by timestamp. -/
def tsDescLe (a b : Interaction) : Bool :=
  decide (b.timestamp ≤ a.timestamp)

/-- Highest-score-first comparison of scored documents. -/
noncomputable def scoreDescLe (a b : ℝ × Interaction) : Bool :=
  decide (b.1 ≤ a.1)

/-- `ORDER BY c.timestamp DESC` / `.sort("timestamp", -1)`: stable sort of
documents by timestamp, newest first. -/
def sortByTimestampDesc (l : List Interaction) : List Interaction :=
  l.mergeSort tsDescLe

/-- `_sql_simple_query`: the most recent `limit` documents, newest first,
internal fields removed; empty on failure. -/
def _sql_simple_query (st : SqlStore) (limit : Nat) : List ExposedRecord :=
  if st.simpleFails then []
  else ((sortByTimestampDesc st.items).take limit).map stripFields

/-- Whether the brute-force loop would raise: `np.dot` fails on a stored
embedding whose dimension differs from the query's. -/
def dimErr (items : List Interaction) (qe : List ℚ) : Bool :=
  items.any (fun it =>
    embTruthy it.embedding && ((it.embedding.getD []).length != qe.length))

/-- `_sql_manual_similarity_search`: fetch all documents, score those with a
truthy embedding by cosine similarity, stable-sort descending, take the top
`limit`, strip internal fields and attach `SimilarityScore`; if anything in
the tier raises (store unreachable, or `np.dot` on mismatched dimensions),
fall back to `_sql_simple_query`. -/
noncomputable def _sql_manual_similarity_search (st : SqlStore) (qe : List ℚ)
    (limit : Nat) : List ExposedRecord :=
  if st.fetchAllFails || dimErr st.items qe then _sql_simple_query st limit
  else if st.items.isEmpty then []
  else
    let similarities := (st.items.filter (fun it => embTruthy it.embedding)).map
      (fun it => (cosineSim qe (it.embedding.getD []), it))
    let sorted := similarities.mergeSort scoreDescLe
    (sorted.take limit).map (fun p => { stripFields p.2 with simScore := some p.1 })

/-- `_sql_vector_search`: the native `VectorDistance` query, falling back to
the brute-force tier when it raises. -/
noncomputable def _sql_vector_search (st : SqlStore) (qe : List ℚ)
    (limit : Nat) (min_score : ℚ) : List ExposedRecord :=
  match st.native qe limit min_score with
  | .ok res => res
  | .error _ => _sql_manual_similarity_search st qe limit

/-- `_mongodb_vector_search`: the `cosmosSearch` aggregation; an empty list
when it raises (no further fallback on this backend). -/
def _mongodb_vector_search (st : MongoStore) (qe : List ℚ) (limit : Nat) :
    List ExposedRecord :=
  match st.aggregate qe limit with
  | .ok res => res
  | .error _ => []

/-- `retrieve_similar_interactions`: embed the query (a failure yields the
empty list via the outer `except`), then dispatch on `client_type`;
`min_score` is passed only to the SQL branch. -/
noncomputable def retrieve_similar_interactions (b : Backend)
    (embed : String → Except String (List ℚ)) (query : String) (limit : Nat)
    (min_score : ℚ) : List ExposedRecord :=
  match embed query with
  | .error _ => []
  | .ok qe =>
    match b with
    | .mongodb st => _mongodb_vector_search st qe limit
    | .sql st => _sql_vector_search st qe limit min_score

/-- `get_recent_history`: documents with exactly matching `session_id`,
newest `limit` of them (ordered newest-first by the query), internal fields
removed, then reversed (`history[::-1]`) into chronological order; empty on
failure. -/
def get_recent_history (b : Backend) (session_id : String) (limit : Nat) :
    List ExposedRecord :=
  match b with
  | .mongodb st =>
    if st.findFails then []
    else
      (((sortByTimestampDesc (st.docs.filter
          (fun it => it.session_id == session_id))).take limit).map
        stripFields).reverse
  | .sql st =>
    if st.recentFails then []
    else
      (((sortByTimestampDesc (st.items.filter
          (fun it => it.session_id == session_id))).take limit).map
        stripFields).reverse

/-- The `client_type` tag fixed by `_init_cosmos_client`. -/
inductive ClientType where
  | mongodb
  | sql
deriving DecidableEq

/-- The message of the `ValueError` raised when no usable credentials are
present (the `ConfigurationError` of the specification's taxonomy). -/
def missingCredentialsMsg : String :=
  "Missing credentials. Provide either:\n1. COSMOS_ENDPOINT and COSMOS_KEY (for SQL API), or\n2. AZURE_COSMOS_CONNECTION_STRING starting with 'mongodb://' or 'mongodb+srv://' (for MongoDB vCore)"

/-- `_init_cosmos_client`: backend selection from the credential shapes
(`if self.endpoint and self.key` / `elif self.connection_string and
self.connection_string.startswith("mongodb")` / `else raise`). -/
def _init_cosmos_client (connection_string endpoint key : Option String) :
    Except String ClientType :=
  if truthy endpoint && truthy key then .ok .sql
  else if truthy connection_string &&
      pyStartsWith (connection_string.getD "") "mongodb" then .ok .mongodb
  else .error missingCredentialsMsg

/-! ## autonomous.py — the orchestrator

`run_autonomous_agent` is modelled over an environment of oracles: whether
memory was requested and whether `MemoryStore()` construction succeeded, the
outcome of context retrieval, the outcome of `generate_plan` (at its
contractual result type, a list of step strings), the model oracle shared by
executor and reflector, and whether `store_interaction` raises.  The result
records the returned value or re-raised exception, every `store_interaction`
attempt, and whether `memory.close()` ran (the `finally` block). -/

structure OrchEnv where
  memEnabled : Bool
  memInitOk : Bool
  freshId : String
  contextRes : Except String ContextBundle
  planRes : Except String (List String)
  run : String → Except String String
  storeFails : Bool

/-- The metadata attached to a persisted interaction: the normal-path
`{"decision": ..., "steps_executed": ...}` or the error-path
`{"error": True, "error_message": ...}`. -/
inductive StoreMeta where
  | normal (decision : String) (steps_executed : Nat)
  | errorFlag (error_message : String)

/-- One `store_interaction` attempt (its failure is swallowed by the caller;
`succeeded` records whether it raised). -/
structure StoreCall where
  session_id : String
  goal : String
  plan : List String
  observations : List String
  result : String
  meta : StoreMeta
  succeeded : Bool

/-- The observable outcome of one `run_autonomous_agent` call. -/
structure OrchResult where
  result : Except String String
  stores : List StoreCall
  closed : Bool

/-- The fresh `AgentState` after the (best-effort) context-retrieval step:
`AgentState(goal=goal)` with the caller's session id when truthy, the
context attached when memory is available and retrieval succeeded. -/
def initialState (env : OrchEnv) (goal : String) (session_id : Option String) :
    AgentState :=
  let sid := if truthy session_id then session_id.getD "" else env.freshId
  let base : AgentState :=
    { goal := goal, session_id := sid, plan := [], current_step := 0,
      observations := [], completed := false, context := none, metadata := [] }
  if env.memEnabled && env.memInitOk then
    match env.contextRes with
    | .ok c => { base with context := some c }
    | .error _ => base
  else base

/-- The `except Exception` branch of `run_autonomous_agent`: build the error
result string, best-effort persist it with the error flag, re-raise the
original exception; the `finally` closes the connection. -/
def errorExit (env : OrchEnv) (goal : String) (st : AgentState) (e : String) :
    OrchResult :=
  let error_result := "Error during execution: " ++ e
  let stores :=
    if env.memEnabled && env.memInitOk then
      [{ session_id := st.session_id, goal := goal, plan := st.plan,
         observations := st.observations ++ [error_result],
         result := error_result, meta := StoreMeta.errorFlag e,
         succeeded := !env.storeFails : StoreCall }]
    else []
  { result := .error e, stores := stores, closed := env.memEnabled && env.memInitOk }

/-- `run_autonomous_agent` from `autonomous.py`. -/
def run_autonomous_agent (env : OrchEnv) (goal : String)
    (session_id : Option String) : OrchResult :=
  let hasMemory := env.memEnabled && env.memInitOk
  let state1 := initialState env goal session_id
  match env.planRes with
  | .error e => errorExit env goal state1 e
  | .ok plan =>
    let state2 := { state1 with plan := plan }
    match execute_plan env.run state2 10 with
    | (stE, some e) => errorExit env goal stE e
    | (state3, none) =>
      match reflect env.run state3 with
      | .error e => errorExit env goal state3 e
      | .ok decision =>
        let result :=
          if decision == "FAIL" then "Agent failed to complete the task."
          else if decision == "RETRY" then
            "Task needs refinement. Consider rephrasing or breaking into smaller goals."
          else
            match state3.observations.getLast? with
            | some o => o
            | none => "Task completed but no observations recorded."
        let stores :=
          if hasMemory then
            [{ session_id := state3.session_id, goal := goal,
               plan := state3.plan, observations := state3.observations,
               result := result,
               meta := StoreMeta.normal decision state3.current_step,
               succeeded := !env.storeFails : StoreCall }]
          else []
        { result := .ok result, stores := stores, closed := hasMemory }

/-! ## Specification-side definitions and concrete instances

Definitions below are either restatements of claimed behaviour (clearly
marked) used to compare against the code-derived functions above, or the
concrete stores, environments and oracles used by witnesses and
counterexamples. -/

/-- The container contents underlying each backend. -/
def backendDocs : Backend → List Interaction
  | .mongodb st => st.docs
  | .sql st => st.items

/-- Whether the session-history query of the backend raises. -/
def historyFails : Backend → Bool
  | .mongodb st => st.findFails
  | .sql st => st.recentFails

/-- Specification-side mapping of a reflection decision to the final result
string: FAIL and RETRY map to their fixed messages (RETRY does not loop back
into planning), CONTINUE to the last observation or the fixed
no-observations message. -/
def decision_result_claimed (decision : String) (observations : List String) :
    String :=
  if decision = "FAIL" then "Agent failed to complete the task."
  else if decision = "RETRY" then
    "Task needs refinement. Consider rephrasing or breaking into smaller goals."
  else
    match observations.getLast? with
    | some o => o
    | none => "Task completed but no observations recorded."

/-- The model oracle used by the C1 witness. -/
def c1Model : String → String := fun _ => "step done"

/-- The fresh three-step state used by the C1 witness (the specification's
scenario: a 3-step plan with `max_steps = 10`). -/
def c1State : AgentState :=
  { goal := "find the weather", session_id := "sess-1",
    plan := ["find city", "get temperature", "report"], current_step := 0,
    observations := [], completed := false, context := none, metadata := [] }

/-- A stored document with an embedding, used by the C2 instances. -/
def c2Doc : Interaction :=
  { session_id := "s1", timestamp := "2024-01-01T00:00:00", goal := "old goal",
    plan := ["old step"], observations := ["old obs"], result := "old result",
    embedding := some [3, 4], metadata := [] }

/-- A MongoDB backend whose vector `$search` aggregation raises. -/
def c2MongoStore : MongoStore :=
  { docs := [c2Doc], aggregate := fun _ _ => .error "vector index not available",
    findFails := false }

/-- A SQL backend whose native `VectorDistance` query raises. -/
def c2SqlStore : SqlStore :=
  { items := [c2Doc], fetchAllFails := false, simpleFails := false,
    recentFails := false,
    native := fun _ _ _ => .error "VectorDistance is not supported" }

/-- The embedding-service oracle used by the C2 instances. -/
def c2Embed : String → Except String (List ℚ) := fun _ => .ok [3, 4]

/-- C6 witness document with an embedding aligned with the query. -/
def c6Doc1 : Interaction :=
  { session_id := "s1", timestamp := "2024-01-01T00:00:00", goal := "g1",
    plan := ["p1"], observations := ["o1"], result := "r1",
    embedding := some [1, 0], metadata := [] }

/-- C6 witness document with an orthogonal embedding. -/
def c6Doc2 : Interaction :=
  { session_id := "s1", timestamp := "2024-01-02T00:00:00", goal := "g2",
    plan := ["p2"], observations := ["o2"], result := "r2",
    embedding := some [0, 1], metadata := [] }

/-- C6 witness document without an embedding (skipped by the ranking). -/
def c6Doc3 : Interaction :=
  { session_id := "s2", timestamp := "2024-01-03T00:00:00", goal := "g3",
    plan := ["p3"], observations := ["o3"], result := "r3",
    embedding := none, metadata := [] }

/-- The SQL backend used by the C6 witness. -/
def c6Store : SqlStore :=
  { items := [c6Doc1, c6Doc2, c6Doc3], fetchAllFails := false,
    simpleFails := false, recentFails := false,
    native := fun _ _ _ => .error "VectorDistance is not supported" }

/-- The orchestrator environment of the C7 witness: memory available,
planning fails, and persisting the error itself also fails (the failure is
swallowed). -/
def c7Env : OrchEnv :=
  { memEnabled := true, memInitOk := true, freshId := "uuid-1",
    contextRes := .error "context unavailable",
    planRes := .error "planner broke",
    run := fun _ => .ok "irrelevant", storeFails := true }

/-- The orchestrator environment of the C8 witness: a one-step plan and a
model whose reflection output asks for RETRY in a longer sentence. -/
def c8Env : OrchEnv :=
  { memEnabled := false, memInitOk := false, freshId := "uuid-2",
    contextRes := .error "no memory",
    planRes := .ok ["look up the city"],
    run := fun _ => .ok "I think we should RETRY this", storeFails := false }

/-- The post-execution state reached in the C8 witness run. -/
def c8S3 : AgentState :=
  { goal := "g8", session_id := "uuid-2", plan := ["look up the city"],
    current_step := 1, observations := ["I think we should RETRY this"],
    completed := true, context := none, metadata := [] }

/-- C9 witness documents: two sessions, interleaved timestamps. -/
def c9Doc1 : Interaction :=
  { session_id := "s1", timestamp := "2024-02-01T00:00:00", goal := "ga",
    plan := [], observations := [], result := "ra", embedding := none,
    metadata := [] }

/-- Second C9 witness document (other session). -/
def c9Doc2 : Interaction :=
  { session_id := "s2", timestamp := "2024-02-02T00:00:00", goal := "gb",
    plan := [], observations := [], result := "rb", embedding := none,
    metadata := [] }

/-- Third C9 witness document (same session as the first, newer). -/
def c9Doc3 : Interaction :=
  { session_id := "s1", timestamp := "2024-02-03T00:00:00", goal := "gc",
    plan := [], observations := [], result := "rc", embedding := none,
    metadata := [] }

/-- The SQL backend used by the C9 witness. -/
def c9Store : SqlStore :=
  { items := [c9Doc1, c9Doc2, c9Doc3], fetchAllFails := false,
    simpleFails := false, recentFails := false,
    native := fun _ _ _ => .error "no index" }

/-! ## Helper lemmas -/

theorem headMatch_self (l : List Char) : headMatch l l = true := by
  induction l with
  | nil => rfl
  | cons c cs ih => simp [headMatch, ih]

theorem subMatch_self (l : List Char) : subMatch l l = true := by
  cases l with
  | nil => rfl
  | cons c cs => simp [subMatch, headMatch_self]

theorem pyHasSub_self (s : String) : pyHasSub s s = true :=
  subMatch_self s.data

theorem braceSpan_eq_none (cs : List Char) (h : hasBracePair cs = false) :
    braceSpan cs = none := by
  induction cs with
  | nil => rfl
  | cons c rest ih =>
    simp only [hasBracePair, Bool.or_eq_false_iff, Bool.and_eq_false_iff] at h
    simp only [braceSpan]
    rcases h with ⟨h1, h2⟩
    rcases h1 with h1 | h1
    · simp [h1, ih h2]
    · by_cases hc : c == '\x7b'
      · simp [hc, h1]
      · simp [hc, ih h2]

theorem startsWith_mongodb_nonempty {s : String}
    (h : pyStartsWith s "mongodb" = true) : (s == "") = false := by
  by_cases hs : s = ""
  · subst hs
    have : pyStartsWith "" "mongodb" = false := by decide
    rw [this] at h
    cases h
  · exact beq_eq_false_iff_ne.mpr hs

theorem reflect_decision_valid (output : String) :
    reflect_decision output = "CONTINUE" ∨ reflect_decision output = "RETRY" ∨
      reflect_decision output = "FAIL" := by
  unfold reflect_decision
  by_cases h1 : pyUpper (pyStrip output) = "CONTINUE"
  · rw [h1]; left; decide
  by_cases h2 : pyUpper (pyStrip output) = "RETRY"
  · rw [h2]; right; left; decide
  by_cases h3 : pyUpper (pyStrip output) = "FAIL"
  · rw [h3]; right; right; decide
  dsimp only
  split_ifs <;> simp_all

theorem execGo_spec (f : String → String) (m : Nat) :
    ∀ (fuel : Nat) (s : AgentState),
      s.observations.length = s.current_step →
      s.current_step ≤ s.plan.length →
      s.current_step ≤ m →
      (execGo (fun p => .ok (f p)) m fuel s).2 = none ∧
      (execGo (fun p => .ok (f p)) m fuel s).1.completed = true ∧
      (execGo (fun p => .ok (f p)) m fuel s).1.plan = s.plan ∧
      (execGo (fun p => .ok (f p)) m fuel s).1.observations.length =
        (execGo (fun p => .ok (f p)) m fuel s).1.current_step ∧
      (execGo (fun p => .ok (f p)) m fuel s).1.current_step ≤ s.plan.length ∧
      (execGo (fun p => .ok (f p)) m fuel s).1.current_step ≤ m ∧
      s.current_step ≤ (execGo (fun p => .ok (f p)) m fuel s).1.current_step := by
  intro fuel
  induction fuel with
  | zero =>
    intro s h1 h2 h3
    simp [execGo, h1, h2, h3]
  | succ fuel ih =>
    intro s h1 h2 h3
    by_cases hg : s.completed = false ∧ s.current_step < s.plan.length ∧
        s.current_step < m
    · have heq : execGo (fun p => .ok (f p)) m (fuel + 1) s =
          execGo (fun p => .ok (f p)) m fuel
            { s with
              observations := s.observations ++
                [f (execPrompt s (s.plan.getD s.current_step ""))],
              current_step := s.current_step + 1 } := by
        simp only [execGo]
        rw [if_pos hg]
      rw [heq]
      have hrec := ih
        { s with
          observations := s.observations ++
            [f (execPrompt s (s.plan.getD s.current_step ""))],
          current_step := s.current_step + 1 }
        (by simp [h1]) hg.2.1 hg.2.2
      exact ⟨hrec.1, hrec.2.1, hrec.2.2.1, hrec.2.2.2.1, hrec.2.2.2.2.1,
        hrec.2.2.2.2.2.1, le_trans (Nat.le_succ _) hrec.2.2.2.2.2.2⟩
    · have heq : execGo (fun p => .ok (f p)) m (fuel + 1) s =
          ({ s with completed := true }, none) := by
        simp only [execGo]
        rw [if_neg hg]
      rw [heq]
      simp [h1, h2, h3]

/-! ## Claim theorems -/

/-- C1: for a run of `execute_plan` on a fresh state (cursor 0, no
observations, not completed) with a model oracle that never raises, the loop
exits normally with `completed` set true unconditionally, exactly one
observation per executed step (`observations` length equals the final
cursor), and the cursor bounded by both the plan length and `max_steps`.
The cursor only ever increases towards its exit value, so the exit bounds
dominate every intermediate value of the run. -/
theorem executor_loop_invariants (f : String → String) (s : AgentState)
    (max_steps : Nat) (h0 : s.current_step = 0) (hobs : s.observations = [])
    (_hc : s.completed = false) :
    (execute_plan (fun p => .ok (f p)) s max_steps).2 = none ∧
    (execute_plan (fun p => .ok (f p)) s max_steps).1.completed = true ∧
    (execute_plan (fun p => .ok (f p)) s max_steps).1.observations.length =
      (execute_plan (fun p => .ok (f p)) s max_steps).1.current_step ∧
    (execute_plan (fun p => .ok (f p)) s max_steps).1.current_step ≤
      (execute_plan (fun p => .ok (f p)) s max_steps).1.plan.length ∧
    (execute_plan (fun p => .ok (f p)) s max_steps).1.current_step ≤
      max_steps := by
  have h := execGo_spec f max_steps (max_steps - s.current_step) s
    (by rw [hobs, h0]; rfl) (by rw [h0]; exact Nat.zero_le _)
    (by rw [h0]; exact Nat.zero_le _)
  unfold execute_plan
  obtain ⟨he, hcmp, hpl, ho, hl1, hl2, _⟩ := h
  exact ⟨he, hcmp, ho, by rw [hpl]; exact hl1, hl2⟩

/-- C1 witness: the invariants instantiated on a concrete fresh state. -/
theorem executor_loop_invariants_witness :
    c1State.current_step = 0 ∧ c1State.observations = [] ∧
    c1State.completed = false ∧
    ((execute_plan (fun p => .ok (c1Model p)) c1State 10).2 = none ∧
     (execute_plan (fun p => .ok (c1Model p)) c1State 10).1.completed = true ∧
     (execute_plan (fun p => .ok (c1Model p)) c1State 10).1.observations.length =
       (execute_plan (fun p => .ok (c1Model p)) c1State 10).1.current_step ∧
     (execute_plan (fun p => .ok (c1Model p)) c1State 10).1.current_step ≤
       (execute_plan (fun p => .ok (c1Model p)) c1State 10).1.plan.length ∧
     (execute_plan (fun p => .ok (c1Model p)) c1State 10).1.current_step ≤ 10) :=
  ⟨rfl, rfl, rfl, executor_loop_invariants c1Model c1State 10 rfl rfl rfl⟩

/-- C5: `reflect` trims and uppercases the model output; an exact match with
one of CONTINUE / RETRY / FAIL is returned as-is, otherwise the first of
those tokens occurring as a substring of the normalised text is returned,
defaulting to CONTINUE; in particular "I think we should RETRY this" yields
RETRY.  The code's exact-match short-circuit agrees with the substring
search, so the behaviour is exactly the claimed normalisation. -/
theorem reflect_normalization :
    (∀ output, reflect_decision output = reflect_claimed output) ∧
    reflect_decision "I think we should RETRY this" = "RETRY" := by
  refine ⟨fun output => ?_, by decide⟩
  simp only [reflect_decision, reflect_claimed]
  by_cases h1 : pyUpper (pyStrip output) = "CONTINUE"
  · rw [h1]; decide
  by_cases h2 : pyUpper (pyStrip output) = "RETRY"
  · rw [h2]; decide
  by_cases h3 : pyUpper (pyStrip output) = "FAIL"
  · rw [h3]; decide
  simp [h1, h2, h3]

/-- C3: backend selection at construction.  When endpoint and key are both
present (truthy) the SQL backend is selected, regardless of any connection
string; otherwise a present connection string beginning with "mongodb"
selects the MongoDB backend; otherwise construction fails with the
missing-credentials error (the specification's `ConfigurationError`). -/
theorem init_client_selection (connection_string endpoint key : Option String) :
    (truthy endpoint = true → truthy key = true →
      _init_cosmos_client connection_string endpoint key = .ok .sql) ∧
    ((truthy endpoint = true ∧ truthy key = true → False) →
      ∀ s, connection_string = some s → pyStartsWith s "mongodb" = true →
        _init_cosmos_client connection_string endpoint key = .ok .mongodb) ∧
    ((truthy endpoint = true ∧ truthy key = true → False) →
      (∀ s, connection_string = some s → pyStartsWith s "mongodb" = false) →
      _init_cosmos_client connection_string endpoint key =
        .error missingCredentialsMsg) := by
  refine ⟨fun he hk => ?_, fun hno s hcs hsw => ?_, fun hno hcs => ?_⟩
  · simp [_init_cosmos_client, he, hk]
  · have hand : (truthy endpoint && truthy key) = false := by
      cases h1 : truthy endpoint <;> cases h2 : truthy key <;>
        simp_all
    have hne : (truthy (some s)) = true := by
      simp [truthy, startsWith_mongodb_nonempty hsw]
    subst hcs
    simp [_init_cosmos_client, hand, hne, hsw]
  · have hand : (truthy endpoint && truthy key) = false := by
      cases h1 : truthy endpoint <;> cases h2 : truthy key <;>
        simp_all
    have hcond2 : (truthy connection_string &&
        pyStartsWith (connection_string.getD "") "mongodb") = false := by
      cases hcon : connection_string with
      | none => simp [truthy]
      | some s => simp [hcs s hcon]
    simp [_init_cosmos_client, hand, hcond2]

/-- C3 witness: with endpoint and key present and no connection string
the SQL backend is selected. -/
theorem init_client_selection_witness :
    _init_cosmos_client none (some "https://acct.documents.azure.com") (some "key123") =
      .ok .sql :=
  (init_client_selection none (some "https://acct.documents.azure.com")
    (some "key123")).1 (by decide) (by decide)

/-- C4: `generate_plan`'s extraction: on the scenario output the `steps`
field is returned; when the output contains no brace-delimited fragment
(no opening brace with a closing brace after it, so the regex cannot match),
or when parsing / field access of the matched fragment fails, the planner
fails with the plan-parse error. -/
theorem generate_plan_extraction :
    parse_plan_output "Some text \x7b\"steps\": [\"find city\", \"report temp\"]\x7d trailing"
      = .ok (.arr [.str "find city", .str "report temp"]) ∧
    (∀ output, hasBracePair output.data = false →
      parse_plan_output output =
        .error ("Planner failed to return valid JSON.\nOutput was:\n" ++ output)) ∧
    (∀ output, (∃ e, (extract_json output).bind getSteps = .error e) →
      parse_plan_output output =
        .error ("Planner failed to return valid JSON.\nOutput was:\n" ++ output)) := by
  refine ⟨rfl, fun output h => ?_, fun output h => ?_⟩
  · have hx : extract_json output =
        .error ("No JSON found in planner output:\n" ++ output) := by
      unfold extract_json
      rw [braceSpan_eq_none output.data h]
    unfold parse_plan_output
    rw [hx]
    rfl
  · obtain ⟨e, he⟩ := h
    unfold parse_plan_output
    rw [he]

/-- C4 witness: a braceless output and an output whose fragment is invalid
JSON both produce the plan-parse error. -/
theorem generate_plan_extraction_witness :
    parse_plan_output "no structured content here" =
      .error ("Planner failed to return valid JSON.\nOutput was:\n" ++
        "no structured content here") ∧
    parse_plan_output "text \x7b]\x7d tail" =
      .error ("Planner failed to return valid JSON.\nOutput was:\n" ++
        "text \x7b]\x7d tail") :=
  ⟨generate_plan_extraction.2.1 "no structured content here" (by decide),
   generate_plan_extraction.2.2 "text \x7b]\x7d tail" ⟨_, rfl⟩⟩

/-- C10: on the MongoDB backend `min_score` has no effect: the parameter is
passed only to the SQL branch, so two retrievals differing only in
`min_score` return the same records. -/
theorem mongodb_min_score_no_effect (st : MongoStore)
    (embed : String → Except String (List ℚ)) (query : String) (limit : Nat)
    (ms1 ms2 : ℚ) :
    retrieve_similar_interactions (.mongodb st) embed query limit ms1 =
      retrieve_similar_interactions (.mongodb st) embed query limit ms2 := by
  unfold retrieve_similar_interactions
  cases embed query <;> rfl

theorem pairwise_sort_ts (l : List Interaction) :
    (l.mergeSort tsDescLe).Pairwise (fun a b => b.timestamp ≤ a.timestamp) := by
  have h := @List.sorted_mergeSort _ tsDescLe
    (fun a b c hab hbc => by
      simp only [tsDescLe, decide_eq_true_eq] at *
      exact le_trans hbc hab)
    (fun a b => by
      simp only [tsDescLe]
      rcases le_total b.timestamp a.timestamp with h | h <;> simp [h])
    l
  exact h.imp (fun hab => of_decide_eq_true hab)

theorem pairwise_sort_score (l : List (ℝ × Interaction)) :
    (l.mergeSort scoreDescLe).Pairwise (fun a b => b.1 ≤ a.1) := by
  have h := @List.sorted_mergeSort _ scoreDescLe
    (fun a b c hab hbc => by
      simp only [scoreDescLe, decide_eq_true_eq] at *
      exact le_trans hbc hab)
    (fun a b => by
      simp only [scoreDescLe]
      rcases le_total b.1 a.1 with h | h <;> simp [h])
    l
  exact h.imp (fun hab => of_decide_eq_true hab)

/-- On success (no fetch failure, no dimension mismatch), the brute-force
tier returns `min limit k` records, `k` the number of documents with a
truthy embedding. -/
theorem manual_search_length (st : SqlStore) (qe : List ℚ) (limit : Nat)
    (hf : st.fetchAllFails = false) (hd : dimErr st.items qe = false) :
    (_sql_manual_similarity_search st qe limit).length =
      min limit (st.items.filter (fun it => embTruthy it.embedding)).length := by
  unfold _sql_manual_similarity_search
  rw [hf, hd]
  simp only [Bool.or_self, Bool.false_eq_true, if_false]
  by_cases hi : st.items.isEmpty
  · have : st.items = [] := List.isEmpty_iff.mp hi
    simp [hi, this]
  · simp only [hi, Bool.false_eq_true, if_false]
    rw [List.length_map, List.length_take,
      (List.mergeSort_perm _ scoreDescLe).length_eq, List.length_map]

/-- On success, every returned record is a stored document with truthy
embedding, stripped of internal fields, carrying its cosine similarity. -/
theorem manual_search_mem (st : SqlStore) (qe : List ℚ) (limit : Nat)
    (hf : st.fetchAllFails = false) (hd : dimErr st.items qe = false) :
    ∀ r ∈ _sql_manual_similarity_search st qe limit,
      ∃ it ∈ st.items, embTruthy it.embedding = true ∧
        r = { stripFields it with
              simScore := some (cosineSim qe (it.embedding.getD [])) } := by
  unfold _sql_manual_similarity_search
  rw [hf, hd]
  simp only [Bool.or_self, Bool.false_eq_true, if_false]
  by_cases hi : st.items.isEmpty
  · simp [hi]
  · simp only [hi, Bool.false_eq_true, if_false]
    intro r hr
    obtain ⟨p, hp, hpr⟩ := List.mem_map.mp hr
    have hp2 : p ∈ (st.items.filter (fun it => embTruthy it.embedding)).map
        (fun it => (cosineSim qe (it.embedding.getD []), it)) :=
      (List.mergeSort_perm _ scoreDescLe).subset (List.mem_of_mem_take hp)
    obtain ⟨it, hit, hpit⟩ := List.mem_map.mp hp2
    obtain ⟨hmem, htr⟩ := List.mem_filter.mp hit
    exact ⟨it, hmem, htr, by rw [← hpr, ← hpit]⟩

/-- On success, the brute-force results are sorted by descending
similarity score. -/
theorem manual_search_sorted (st : SqlStore) (qe : List ℚ) (limit : Nat)
    (hf : st.fetchAllFails = false) (hd : dimErr st.items qe = false) :
    (_sql_manual_similarity_search st qe limit).Pairwise
      (fun a b => b.simScore.getD 0 ≤ a.simScore.getD 0) := by
  unfold _sql_manual_similarity_search
  rw [hf, hd]
  simp only [Bool.or_self, Bool.false_eq_true, if_false]
  by_cases hi : st.items.isEmpty
  · simp [hi]
  · simp only [hi, Bool.false_eq_true, if_false]
    rw [List.pairwise_map]
    have hsorted := pairwise_sort_score
      ((st.items.filter (fun it => embTruthy it.embedding)).map
        (fun it => (cosineSim qe (it.embedding.getD []), it)))
    have htake := hsorted.sublist (List.take_sublist limit _)
    exact htake.imp (fun h => by simpa using h)

/-- On success, the brute-force results are an initial segment (prefix) of
the full descending-sorted scored list: together with the length property
this pins them to the top `limit` by similarity, not an arbitrary
descending selection. -/
theorem manual_search_prefix (st : SqlStore) (qe : List ℚ) (limit : Nat)
    (hf : st.fetchAllFails = false) (hd : dimErr st.items qe = false) :
    ∃ rest, (((st.items.filter (fun it => embTruthy it.embedding)).map
        (fun it => (cosineSim qe (it.embedding.getD []), it))).mergeSort
          scoreDescLe).map
        (fun p => { stripFields p.2 with simScore := some p.1 }) =
      _sql_manual_similarity_search st qe limit ++ rest := by
  unfold _sql_manual_similarity_search
  rw [hf, hd]
  simp only [Bool.or_self, Bool.false_eq_true, if_false]
  by_cases hi : st.items.isEmpty
  · have hnil : st.items = [] := List.isEmpty_iff.mp hi
    refine ⟨[], ?_⟩
    simp [hi, hnil]
  · simp only [hi, Bool.false_eq_true, if_false]
    refine ⟨((((st.items.filter (fun it => embTruthy it.embedding)).map
        (fun it => (cosineSim qe (it.embedding.getD []), it))).mergeSort
          scoreDescLe).drop limit).map
        (fun p => { stripFields p.2 with simScore := some p.1 }), ?_⟩
    rw [← List.map_append, List.take_append_drop]

/-- When it does not itself fail, the simple query's results are a prefix of
the full newest-first ordering of the container: the most recent `limit`
documents. -/
theorem simple_query_prefix (st : SqlStore) (limit : Nat)
    (hs : st.simpleFails = false) :
    ∃ rest, (sortByTimestampDesc st.items).map stripFields =
      _sql_simple_query st limit ++ rest := by
  unfold _sql_simple_query
  rw [hs]
  simp only [Bool.false_eq_true, if_false]
  refine ⟨((sortByTimestampDesc st.items).drop limit).map stripFields, ?_⟩
  rw [← List.map_append, List.take_append_drop]

/-- A fetch failure or a dimension mismatch makes the brute-force tier fall
back to the simple reverse-chronological query. -/
theorem manual_search_fallback (st : SqlStore) (qe : List ℚ) (limit : Nat)
    (h : st.fetchAllFails = true ∨ dimErr st.items qe = true) :
    _sql_manual_similarity_search st qe limit = _sql_simple_query st limit := by
  unfold _sql_manual_similarity_search
  rcases h with h | h <;> simp [h]

/-- When it does not itself fail, the simple query returns `min limit n`
stripped documents sorted newest-first. -/
theorem simple_query_props (st : SqlStore) (limit : Nat)
    (hs : st.simpleFails = false) :
    (_sql_simple_query st limit).length = min limit st.items.length ∧
    (_sql_simple_query st limit).Pairwise
      (fun a b => b.timestamp ≤ a.timestamp) ∧
    (∀ r ∈ _sql_simple_query st limit, ∃ it ∈ st.items, r = stripFields it) := by
  unfold _sql_simple_query
  rw [hs]
  simp only [Bool.false_eq_true, if_false]
  refine ⟨?_, ?_, ?_⟩
  · rw [List.length_map, List.length_take, sortByTimestampDesc,
      (List.mergeSort_perm _ tsDescLe).length_eq]
  · rw [List.pairwise_map]
    have := (pairwise_sort_ts st.items).sublist (List.take_sublist limit _)
    exact this.imp (fun h => by simpa [stripFields] using h)
  · intro r hr
    obtain ⟨it, hit, hitr⟩ := List.mem_map.mp hr
    have : it ∈ st.items :=
      (List.mergeSort_perm _ tsDescLe).subset (List.mem_of_mem_take hit)
    exact ⟨it, this, hitr.symm⟩

/-- Both backends implement the same history-query shape over their
container contents. -/
theorem get_recent_history_eq (b : Backend) (sid : String) (limit : Nat) :
    get_recent_history b sid limit =
      if historyFails b then []
      else (((sortByTimestampDesc ((backendDocs b).filter
          (fun it => it.session_id == sid))).take limit).map stripFields).reverse := by
  cases b <;> rfl

/-- Observable content of the error-path exit of the orchestrator. -/
theorem errorExit_props (env : OrchEnv) (goal : String) (st : AgentState)
    (e : String) (hmem : env.memEnabled = true) (hinit : env.memInitOk = true) :
    (errorExit env goal st e).result = .error e ∧
    (errorExit env goal st e).closed = true ∧
    (errorExit env goal st e).stores =
      [{ session_id := st.session_id, goal := goal, plan := st.plan,
         observations := st.observations ++ ["Error during execution: " ++ e],
         result := "Error during execution: " ++ e,
         meta := StoreMeta.errorFlag e, succeeded := !env.storeFails }] := by
  simp [errorExit, hmem, hinit]

/-- C6: the brute-force similarity tier.  On a successful fetch with
consistent dimensions: every returned record is a stored document with a
non-empty (truthy) embedding carrying its cosine similarity
`dot(a,b) / (‖a‖·‖b‖)` as `SimilarityScore`, documents without an embedding
are skipped, results are sorted descending by similarity, and they are a
prefix of the full descending-sorted scored list of length `min limit k`
(`k` the number of embedded documents) — i.e. the top `limit` by
similarity; when the tier itself fails it degrades to `_sql_simple_query`,
whose results are a prefix of the full newest-first ordering of length
`min limit n` — the most recent `limit` documents in reverse-chronological
order. -/
theorem brute_force_similarity_spec (st : SqlStore) (qe : List ℚ) (limit : Nat) :
    (st.fetchAllFails = false → dimErr st.items qe = false →
      ((_sql_manual_similarity_search st qe limit).length =
         min limit (st.items.filter (fun it => embTruthy it.embedding)).length ∧
       (∀ r ∈ _sql_manual_similarity_search st qe limit,
         ∃ it ∈ st.items, embTruthy it.embedding = true ∧
           r = { stripFields it with
                 simScore := some (cosineSim qe (it.embedding.getD [])) }) ∧
       (_sql_manual_similarity_search st qe limit).Pairwise
         (fun a b => b.simScore.getD 0 ≤ a.simScore.getD 0) ∧
       (∃ rest, (((st.items.filter (fun it => embTruthy it.embedding)).map
           (fun it => (cosineSim qe (it.embedding.getD []), it))).mergeSort
             scoreDescLe).map
           (fun p => { stripFields p.2 with simScore := some p.1 }) =
         _sql_manual_similarity_search st qe limit ++ rest))) ∧
    ((st.fetchAllFails = true ∨ dimErr st.items qe = true) →
      _sql_manual_similarity_search st qe limit = _sql_simple_query st limit) ∧
    (st.simpleFails = false →
      ((_sql_simple_query st limit).length = min limit st.items.length ∧
       (_sql_simple_query st limit).Pairwise
         (fun a b => b.timestamp ≤ a.timestamp) ∧
       (∀ r ∈ _sql_simple_query st limit, ∃ it ∈ st.items,
         r = stripFields it) ∧
       (∃ rest, (sortByTimestampDesc st.items).map stripFields =
         _sql_simple_query st limit ++ rest))) :=
  ⟨fun hf hd => ⟨manual_search_length st qe limit hf hd,
    manual_search_mem st qe limit hf hd, manual_search_sorted st qe limit hf hd,
    manual_search_prefix st qe limit hf hd⟩,
   fun h => manual_search_fallback st qe limit h,
   fun hs => ⟨(simple_query_props st limit hs).1,
    (simple_query_props st limit hs).2.1, (simple_query_props st limit hs).2.2,
    simple_query_prefix st limit hs⟩⟩

/-- C6 witness: the brute-force tier and the degraded tier evaluated on a
concrete three-document store (two embedded documents, one without) with
`limit = 1`, so the truncation to the single top-similarity record — and,
in the degraded tier, to the single most recent record — is exercised. -/
theorem brute_force_similarity_spec_witness :
    c6Store.fetchAllFails = false ∧ dimErr c6Store.items [1, 0] = false ∧
    c6Store.simpleFails = false ∧
    (((_sql_manual_similarity_search c6Store [1, 0] 1).length =
        min 1 (c6Store.items.filter (fun it => embTruthy it.embedding)).length ∧
      (∀ r ∈ _sql_manual_similarity_search c6Store [1, 0] 1,
        ∃ it ∈ c6Store.items, embTruthy it.embedding = true ∧
          r = { stripFields it with
                simScore := some (cosineSim [1, 0] (it.embedding.getD [])) }) ∧
      (_sql_manual_similarity_search c6Store [1, 0] 1).Pairwise
        (fun a b => b.simScore.getD 0 ≤ a.simScore.getD 0) ∧
      (∃ rest, (((c6Store.items.filter (fun it => embTruthy it.embedding)).map
          (fun it => (cosineSim [1, 0] (it.embedding.getD []), it))).mergeSort
            scoreDescLe).map
          (fun p => { stripFields p.2 with simScore := some p.1 }) =
        _sql_manual_similarity_search c6Store [1, 0] 1 ++ rest)) ∧
     ((_sql_simple_query c6Store 1).length = min 1 c6Store.items.length ∧
      (_sql_simple_query c6Store 1).Pairwise
        (fun a b => b.timestamp ≤ a.timestamp) ∧
      (∀ r ∈ _sql_simple_query c6Store 1, ∃ it ∈ c6Store.items,
        r = stripFields it) ∧
      (∃ rest, (sortByTimestampDesc c6Store.items).map stripFields =
        _sql_simple_query c6Store 1 ++ rest))) :=
  ⟨rfl, rfl, rfl,
   (brute_force_similarity_spec c6Store [1, 0] 1).1 rfl rfl,
   (brute_force_similarity_spec c6Store [1, 0] 1).2.2 rfl⟩

/-- C2 counterexample: on the MongoDB backend a native-vector-search error
yields the empty list even though the store holds a document with an
embedding and the limit is positive — there is no brute-force fallback on
this backend, refuting the claim for "either backend variant". -/
theorem mongodb_no_fallback_counterexample :
    c2MongoStore.docs.any (fun it => embTruthy it.embedding) = true ∧
    (0 : Nat) < 5 ∧
    retrieve_similar_interactions (.mongodb c2MongoStore) c2Embed
      "What is the weather?" 5 (7 / 10) = [] :=
  ⟨rfl, by decide, rfl⟩

/-- C2 (amended): on the SQL backend, when the native vector query raises
and the brute-force tier can run (fetch succeeds, dimensions agree) over at
least one embedded document, with a positive limit, the retrieval returns
the brute-force cosine results and they are non-empty. -/
theorem sql_native_error_fallback (st : SqlStore)
    (embed : String → Except String (List ℚ)) (query : String) (limit : Nat)
    (min_score : ℚ) (qe : List ℚ)
    (hemb : embed query = .ok qe)
    (hnat : ∃ e, st.native qe limit min_score = .error e)
    (hf : st.fetchAllFails = false)
    (hd : dimErr st.items qe = false)
    (hcnt : 0 < (st.items.filter (fun it => embTruthy it.embedding)).length)
    (hlim : 0 < limit) :
    retrieve_similar_interactions (.sql st) embed query limit min_score =
      _sql_manual_similarity_search st qe limit ∧
    retrieve_similar_interactions (.sql st) embed query limit min_score ≠ [] := by
  obtain ⟨e, he⟩ := hnat
  have heq : retrieve_similar_interactions (.sql st) embed query limit min_score =
      _sql_manual_similarity_search st qe limit := by
    simp [retrieve_similar_interactions, _sql_vector_search, hemb, he]
  refine ⟨heq, ?_⟩
  rw [heq]
  have hlen := manual_search_length st qe limit hf hd
  intro hnil
  rw [hnil] at hlen
  simp only [List.length_nil] at hlen
  omega

/-- C2 witness: the SQL fallback evaluated on a concrete store with one
embedded document. -/
theorem sql_native_error_fallback_witness :
    c2Embed "What is the weather?" = .ok [3, 4] ∧
    (∃ e, c2SqlStore.native [3, 4] 5 (7 / 10) = .error e) ∧
    c2SqlStore.fetchAllFails = false ∧
    dimErr c2SqlStore.items [3, 4] = false ∧
    0 < (c2SqlStore.items.filter (fun it => embTruthy it.embedding)).length ∧
    (0 : Nat) < 5 ∧
    (retrieve_similar_interactions (.sql c2SqlStore) c2Embed
        "What is the weather?" 5 (7 / 10) =
      _sql_manual_similarity_search c2SqlStore [3, 4] 5 ∧
     retrieve_similar_interactions (.sql c2SqlStore) c2Embed
        "What is the weather?" 5 (7 / 10) ≠ []) :=
  ⟨rfl, ⟨_, rfl⟩, rfl, rfl, by decide, by decide,
   sql_native_error_fallback c2SqlStore c2Embed "What is the weather?" 5
     (7 / 10) [3, 4] rfl ⟨_, rfl⟩ rfl rfl (by decide) (by decide)⟩

/-- C9: `get_recent_history` returns only records whose `session_id`
matches exactly, consisting of the newest `limit` matching documents (a
prefix of the newest-first ordering), delivered oldest-first (chronological)
with internal fields stripped; any failure yields the empty sequence. -/
theorem get_recent_history_spec (b : Backend) (sid : String) (limit : Nat) :
    (historyFails b = true → get_recent_history b sid limit = []) ∧
    (historyFails b = false →
      ((∀ r ∈ get_recent_history b sid limit, r.session_id = sid) ∧
       (get_recent_history b sid limit).Pairwise
         (fun x y => x.timestamp ≤ y.timestamp) ∧
       (get_recent_history b sid limit).length =
         min limit ((backendDocs b).filter
           (fun it => it.session_id == sid)).length ∧
       (∀ r ∈ get_recent_history b sid limit, r.simScore = none ∧
         ∃ it ∈ backendDocs b, it.session_id = sid ∧ r = stripFields it) ∧
       (∃ rest, (sortByTimestampDesc ((backendDocs b).filter
           (fun it => it.session_id == sid))).map stripFields =
         (get_recent_history b sid limit).reverse ++ rest))) := by
  constructor
  · intro h
    rw [get_recent_history_eq, h]
    rfl
  · intro h
    rw [get_recent_history_eq, h]
    simp only [Bool.false_eq_true, if_false]
    have hmem : ∀ r ∈ (((sortByTimestampDesc ((backendDocs b).filter
        (fun it => it.session_id == sid))).take limit).map stripFields).reverse,
        ∃ it ∈ backendDocs b, it.session_id = sid ∧ r = stripFields it := by
      intro r hr
      rw [List.mem_reverse] at hr
      obtain ⟨it, hit, hitr⟩ := List.mem_map.mp hr
      have h2 : it ∈ (backendDocs b).filter (fun x => x.session_id == sid) :=
        (List.mergeSort_perm _ tsDescLe).subset (List.mem_of_mem_take hit)
      obtain ⟨h3, h4⟩ := List.mem_filter.mp h2
      exact ⟨it, h3, beq_iff_eq.mp h4, hitr.symm⟩
    refine ⟨?_, ?_, ?_, ?_, ?_⟩
    · intro r hr
      obtain ⟨it, _, hsid, hstr⟩ := hmem r hr
      rw [hstr]
      exact hsid
    · rw [List.pairwise_reverse, List.pairwise_map]
      have := (pairwise_sort_ts ((backendDocs b).filter
        (fun it => it.session_id == sid))).sublist (List.take_sublist limit _)
      exact this.imp (fun hab => by simpa [stripFields] using hab)
    · rw [List.length_reverse, List.length_map, List.length_take,
        sortByTimestampDesc, (List.mergeSort_perm _ tsDescLe).length_eq]
    · intro r hr
      obtain ⟨it, h3, hsid, hstr⟩ := hmem r hr
      exact ⟨by rw [hstr]; rfl, it, h3, hsid, hstr⟩
    · refine ⟨((sortByTimestampDesc ((backendDocs b).filter
        (fun it => it.session_id == sid))).drop limit).map stripFields, ?_⟩
      rw [List.reverse_reverse, ← List.map_append, List.take_append_drop]

/-- C9 witness: the history query evaluated on a concrete store with two
sessions. -/
theorem get_recent_history_spec_witness :
    historyFails (.sql c9Store) = false ∧
    ((∀ r ∈ get_recent_history (.sql c9Store) "s1" 5, r.session_id = "s1") ∧
     (get_recent_history (.sql c9Store) "s1" 5).Pairwise
       (fun x y => x.timestamp ≤ y.timestamp) ∧
     (get_recent_history (.sql c9Store) "s1" 5).length =
       min 5 ((backendDocs (.sql c9Store)).filter
         (fun it => it.session_id == "s1")).length ∧
     (∀ r ∈ get_recent_history (.sql c9Store) "s1" 5, r.simScore = none ∧
       ∃ it ∈ backendDocs (.sql c9Store), it.session_id = "s1" ∧
         r = stripFields it) ∧
     (∃ rest, (sortByTimestampDesc ((backendDocs (.sql c9Store)).filter
         (fun it => it.session_id == "s1"))).map stripFields =
       (get_recent_history (.sql c9Store) "s1" 5).reverse ++ rest)) :=
  ⟨rfl, (get_recent_history_spec (.sql c9Store) "s1" 5).2 rfl⟩

/-- C7: when memory is available, any exception from planning, execution or
reflection makes `run_autonomous_agent` persist one interaction whose result
is the error string `"Error during execution: " ++ e` with the error flag in
its metadata (the attempt is made whether or not persistence itself fails,
and its failure changes nothing else), then re-raise the original
exception; and on every exit path, normal or exceptional, the memory
connection is closed. -/
theorem orchestrator_error_handling (env : OrchEnv) (goal : String)
    (sid : Option String) (hmem : env.memEnabled = true)
    (hinit : env.memInitOk = true) :
    (∀ e, env.planRes = .error e →
      (run_autonomous_agent env goal sid).result = .error e ∧
      (run_autonomous_agent env goal sid).stores =
        [{ session_id := (initialState env goal sid).session_id, goal := goal,
           plan := (initialState env goal sid).plan,
           observations := (initialState env goal sid).observations ++
             ["Error during execution: " ++ e],
           result := "Error during execution: " ++ e,
           meta := StoreMeta.errorFlag e, succeeded := !env.storeFails }]) ∧
    (∀ p stE e, env.planRes = .ok p →
      execute_plan env.run { initialState env goal sid with plan := p } 10 =
        (stE, some e) →
      (run_autonomous_agent env goal sid).result = .error e ∧
      (run_autonomous_agent env goal sid).stores =
        [{ session_id := stE.session_id, goal := goal, plan := stE.plan,
           observations := stE.observations ++
             ["Error during execution: " ++ e],
           result := "Error during execution: " ++ e,
           meta := StoreMeta.errorFlag e, succeeded := !env.storeFails }]) ∧
    (∀ p s3 e, env.planRes = .ok p →
      execute_plan env.run { initialState env goal sid with plan := p } 10 =
        (s3, none) →
      env.run (reflectPrompt s3) = .error e →
      (run_autonomous_agent env goal sid).result = .error e ∧
      (run_autonomous_agent env goal sid).stores =
        [{ session_id := s3.session_id, goal := goal, plan := s3.plan,
           observations := s3.observations ++
             ["Error during execution: " ++ e],
           result := "Error during execution: " ++ e,
           meta := StoreMeta.errorFlag e, succeeded := !env.storeFails }]) ∧
    (run_autonomous_agent env goal sid).closed = true := by
  refine ⟨?_, ?_, ?_, ?_⟩
  · intro e he
    have heq : run_autonomous_agent env goal sid =
        errorExit env goal (initialState env goal sid) e := by
      unfold run_autonomous_agent
      rw [he]
    rw [heq]
    have h := errorExit_props env goal (initialState env goal sid) e hmem hinit
    exact ⟨h.1, h.2.2⟩
  · intro p stE e hp hex
    have heq : run_autonomous_agent env goal sid = errorExit env goal stE e := by
      unfold run_autonomous_agent
      rw [hp]
      dsimp only
      rw [hex]
    rw [heq]
    have h := errorExit_props env goal stE e hmem hinit
    exact ⟨h.1, h.2.2⟩
  · intro p s3 e hp hex hre
    have heq : run_autonomous_agent env goal sid = errorExit env goal s3 e := by
      unfold run_autonomous_agent
      rw [hp]
      dsimp only
      rw [hex]
      dsimp only
      unfold reflect
      rw [hre]
    rw [heq]
    have h := errorExit_props env goal s3 e hmem hinit
    exact ⟨h.1, h.2.2⟩
  · unfold run_autonomous_agent
    cases hp : env.planRes with
    | error e => simp [errorExit, hmem, hinit]
    | ok p =>
      dsimp only
      rcases hex : execute_plan env.run
          { initialState env goal sid with plan := p } 10 with ⟨stE, oe⟩
      cases oe with
      | some e => simp [errorExit, hmem, hinit]
      | none =>
        dsimp only
        unfold reflect
        cases hre : env.run (reflectPrompt stE) with
        | error e => simp [errorExit, hmem, hinit]
        | ok out => simp [hmem, hinit]

/-- C7 witness: a planner failure with memory enabled and a failing
persistence layer — the error is still persisted (attempted), the original
exception re-raised, the connection closed. -/
theorem orchestrator_error_handling_witness :
    c7Env.memEnabled = true ∧ c7Env.memInitOk = true ∧
    c7Env.planRes = .error "planner broke" ∧
    ((run_autonomous_agent c7Env "the goal" none).result =
        .error "planner broke" ∧
     (run_autonomous_agent c7Env "the goal" none).stores =
       [{ session_id := (initialState c7Env "the goal" none).session_id,
          goal := "the goal",
          plan := (initialState c7Env "the goal" none).plan,
          observations := (initialState c7Env "the goal" none).observations ++
            ["Error during execution: " ++ "planner broke"],
          result := "Error during execution: " ++ "planner broke",
          meta := StoreMeta.errorFlag "planner broke",
          succeeded := !c7Env.storeFails }]) ∧
    (run_autonomous_agent c7Env "the goal" none).closed = true :=
  ⟨rfl, rfl, rfl,
   (orchestrator_error_handling c7Env "the goal" none rfl rfl).1
     "planner broke" rfl,
   (orchestrator_error_handling c7Env "the goal" none rfl rfl).2.2.2⟩

/-- C8: when planning, execution and reflection all succeed, the returned
result is determined by the reflection decision exactly as claimed: FAIL
yields the fixed failure message, RETRY the fixed needs-refinement message
(no second planning round exists on this path), CONTINUE the last
observation or the fixed no-observations message; the decision is always
one of the three tokens. -/
theorem orchestrator_decision_mapping (env : OrchEnv) (goal : String)
    (sid : Option String) (p : List String) (s3 : AgentState) (out : String)
    (hplan : env.planRes = .ok p)
    (hexec : execute_plan env.run
      { initialState env goal sid with plan := p } 10 = (s3, none))
    (hrefl : env.run (reflectPrompt s3) = .ok out) :
    (reflect_decision out = "CONTINUE" ∨ reflect_decision out = "RETRY" ∨
      reflect_decision out = "FAIL") ∧
    (run_autonomous_agent env goal sid).result =
      .ok (decision_result_claimed (reflect_decision out) s3.observations) := by
  refine ⟨reflect_decision_valid out, ?_⟩
  unfold run_autonomous_agent
  rw [hplan]
  dsimp only
  rw [hexec]
  dsimp only
  unfold reflect
  rw [hrefl]
  dsimp only
  simp only [decision_result_claimed, beq_iff_eq]

/-- C8 witness: a concrete run whose reflection output contains RETRY in a
longer sentence; the run terminates with the fixed needs-refinement
message. -/
theorem orchestrator_decision_mapping_witness :
    c8Env.planRes = .ok ["look up the city"] ∧
    execute_plan c8Env.run
      { initialState c8Env "g8" none with plan := ["look up the city"] } 10 =
      (c8S3, none) ∧
    c8Env.run (reflectPrompt c8S3) = .ok "I think we should RETRY this" ∧
    ((reflect_decision "I think we should RETRY this" = "CONTINUE" ∨
      reflect_decision "I think we should RETRY this" = "RETRY" ∨
      reflect_decision "I think we should RETRY this" = "FAIL") ∧
     (run_autonomous_agent c8Env "g8" none).result =
       .ok (decision_result_claimed
         (reflect_decision "I think we should RETRY this")
         c8S3.observations)) :=
  ⟨rfl, rfl, rfl,
   orchestrator_decision_mapping c8Env "g8" none ["look up the city"] c8S3
     "I think we should RETRY this" rfl rfl rfl⟩

end Agent
